import Mathlib

/-!
Verification of the git sync orchestrator of this repository.

The two orchestrating components are embedded as pure trace-producing
functions:

* the sync dropdown (handlePull, handlePush, handleCheckoutBranch,
  refreshState), translated from the GitSyncDropdown component;
* the branches modal (modalHandleCheckout, modalHandleMerge,
  modalHandleDelete, modalHandleRemoteCheckout, modalShow and the
  remoteOnlyBranches computation of its render method), translated from
  the GitBranchesModal component.

Engine calls (the GitVCS interface) are modelled by an oracle structure
Vcs that records, for each operation, the result the engine returns on
this invocation. Each handler returns the list of observable actions it
performs, in order, as a List Event; handlers that can throw an uncaught
error additionally return an Option GitError that is some e exactly when
an error escapes the handler (the thrown error of the unconfigured
repository guard).
-/

namespace GitSync

/-- An error value carried by a rejected engine promise or a thrown
JS Error: a code (compared against the string PushRejectedError by the
push handler) and a message. -/
structure GitError where
  code : String
  message : String
deriving Repr, DecidableEq

/-- Author field of a commit: name and timestamp in seconds. -/
structure GitAuthor where
  name : String
  timestamp : Int
deriving Repr, DecidableEq

/-- Commit payload of a log entry, as read by the dropdown. -/
structure GitCommit where
  author : GitAuthor
deriving Repr, DecidableEq

/-- One entry of the engine log. -/
structure GitLogEntry where
  commit : GitCommit
deriving Repr, DecidableEq

/-- Repository configuration; only the credentials are observed by the
handlers modelled here. -/
structure GitRepository where
  credentials : String
deriving Repr, DecidableEq

/-- Oracle for one round of engine calls: the value or error each GitVCS
operation produces when the handler invokes it. -/
structure Vcs where
  isInitialized : Bool
  getBranch : String
  listBranches : List String
  listRemoteBranches : List String
  log : List GitLogEntry
  pullResult : Except GitError Unit
  canPushResult : Except GitError Bool
  pushResult : Bool → Except GitError Unit
  checkoutResult : String → Except GitError Unit
  mergeResult : String → Except GitError Unit
  deleteBranchResult : String → Except GitError Unit
  fetchResult : Bool → Nat → Except GitError Unit

/-- Persisted per-workspace metadata record, with the three cached git
fields and the repository binding. -/
structure WorkspaceMeta where
  cachedGitRepositoryBranch : Option String
  cachedGitLastAuthor : Option String
  cachedGitLastCommitTime : Option Int
  gitRepositoryId : Option String
deriving Repr, DecidableEq

/-- JS falsiness of an optional string: null, undefined and the empty
string are falsy. -/
def strFalsy : Option String → Bool
  | none => true
  | some s => s.isEmpty

/-- From common misc: true when the value is neither null nor
undefined. -/
def isNotNullOrUndefined (o : Option α) : Bool :=
  o.isSome

/-- Observable actions of the orchestrator, in the order the handlers
perform them. -/
inductive Event where
  | bufferChanges
  | flushChanges (notify : Bool)
  | enginePull (credentials : String)
  | engineCanPush (credentials : String)
  | enginePush (credentials : String) (force : Bool)
  | engineCheckout (branch : String)
  | engineMerge (branch : String)
  | engineDeleteBranch (branch : String)
  | engineFetch (credentials : String) (fetchAllBranches : Bool) (depth : Nat)
  | showError (title : String)
  | showAlert (title : String)
  | offerForcePushRetry (retryForce : Bool)
  | initializeEntities
  | refreshStateEv
  | setErrorState (message : String)
deriving Repr, DecidableEq

/-- Embedding of the metadata refresh of the dropdown. Input is the
engine oracle and the stored metadata record; output is the stored
record after the call together with a flag that is true exactly when a
database write was issued. -/
def refreshState (vcs : Vcs) (meta : WorkspaceMeta) : WorkspaceMeta × Bool :=
  if !vcs.isInitialized || strFalsy meta.gitRepositoryId then
    let needsUpdate :=
      isNotNullOrUndefined meta.cachedGitRepositoryBranch ||
      isNotNullOrUndefined meta.cachedGitLastAuthor ||
      isNotNullOrUndefined meta.cachedGitLastCommitTime
    if needsUpdate then
      ({ meta with
          cachedGitRepositoryBranch := none
          cachedGitLastAuthor := none
          cachedGitLastCommitTime := none }, true)
    else
      (meta, false)
  else
    let author := vcs.log.head?.map (fun en => en.commit.author)
    ({ meta with
        cachedGitRepositoryBranch := some vcs.getBranch
        cachedGitLastAuthor := author.map (fun a => a.name)
        cachedGitLastCommitTime := author.map (fun a => a.timestamp * 1000) }, true)

/-- Embedding of the pull handler of the dropdown. With no configured
repository the handler throws; otherwise it buffers, pulls, reports a
pull error, and flushes without notification on both paths. -/
def handlePull (repo : Option GitRepository) (vcs : Vcs) :
    List Event × Option GitError :=
  match repo with
  | none =>
    ([], some { code := "Error"
                message := "Tried to pull without configuring git repo" })
  | some r =>
    match vcs.pullResult with
    | .ok _ =>
      ([Event.bufferChanges, Event.enginePull r.credentials,
        Event.flushChanges false], none)
    | .error _ =>
      ([Event.bufferChanges, Event.enginePull r.credentials,
        Event.showError "Error Pulling Repository",
        Event.flushChanges false], none)

/-- Embedding of the push handler of the dropdown. -/
def handlePush (repo : Option GitRepository) (vcs : Vcs) (force : Bool) :
    List Event × Option GitError :=
  match repo with
  | none =>
    ([], some { code := "Error"
                message := "Tried to push without configuring git repo" })
  | some r =>
    match vcs.canPushResult with
    | .error _ =>
      ([Event.engineCanPush r.credentials,
        Event.showError "Error Pushing Repository"], none)
    | .ok false =>
      ([Event.engineCanPush r.credentials,
        Event.showAlert "Push Skipped"], none)
    | .ok true =>
      match vcs.pushResult force with
      | .ok _ =>
        ([Event.engineCanPush r.credentials, Event.bufferChanges,
          Event.enginePush r.credentials force,
          Event.flushChanges false], none)
      | .error e =>
        if e.code = "PushRejectedError" then
          ([Event.engineCanPush r.credentials, Event.bufferChanges,
            Event.enginePush r.credentials force,
            Event.offerForcePushRetry true,
            Event.flushChanges false], none)
        else
          ([Event.engineCanPush r.credentials, Event.bufferChanges,
            Event.enginePush r.credentials force,
            Event.showError "Error Pushing Repository",
            Event.flushChanges false], none)

/-- The onConfirm continuation of the Push Rejected alert: it re-invokes
the push handler with force set to true. -/
def confirmForcePushRetry (repo : Option GitRepository) (vcs : Vcs) :
    List Event × Option GitError :=
  handlePush repo vcs true

/-- Embedding of the checkout handler of the dropdown: buffer, checkout
(an error is reported, not rethrown), flush with notification,
reinitialize entities, refresh metadata. -/
def handleCheckoutBranch (vcs : Vcs) (branch : String) : List Event :=
  match vcs.checkoutResult branch with
  | .ok _ =>
    [Event.bufferChanges, Event.engineCheckout branch,
     Event.flushChanges true, Event.initializeEntities,
     Event.refreshStateEv]
  | .error _ =>
    [Event.bufferChanges, Event.engineCheckout branch,
     Event.showError "Checkout Error",
     Event.flushChanges true, Event.initializeEntities,
     Event.refreshStateEv]

/-- Embedding of the error wrapper of the branches modal: the events the
callback performed are kept, and an error the callback threw is turned
into a setState of the error message. -/
def errorHandler : List Event × Option GitError → List Event
  | (evs, none) => evs
  | (evs, some e) => evs ++ [Event.setErrorState e.message]

/-- Body of the checkout handler of the branches modal, before its error
wrapper: the events performed and the error, if any, that escapes to the
wrapper. A checkout error aborts the callback after the buffer was
opened, before the flush. -/
def modalCheckoutInner (vcs : Vcs) (branch : String) :
    List Event × Option GitError :=
  match vcs.checkoutResult branch with
  | .error e =>
    ([Event.bufferChanges, Event.engineCheckout branch], some e)
  | .ok _ =>
    ([Event.bufferChanges, Event.engineCheckout branch,
      Event.flushChanges true, Event.initializeEntities,
      Event.refreshStateEv], none)

/-- Checkout handler of the branches modal. -/
def modalHandleCheckout (vcs : Vcs) (branch : String) : List Event :=
  errorHandler (modalCheckoutInner vcs branch)

/-- Body of the merge handler of the branches modal: merge, then on
success the checkout handler for the same branch (merge does not update
the working directory). -/
def modalMergeInner (vcs : Vcs) (branch : String) :
    List Event × Option GitError :=
  match vcs.mergeResult branch with
  | .error e => ([Event.engineMerge branch], some e)
  | .ok _ =>
    (Event.engineMerge branch :: modalHandleCheckout vcs branch, none)

/-- Merge handler of the branches modal. -/
def modalHandleMerge (vcs : Vcs) (branch : String) : List Event :=
  errorHandler (modalMergeInner vcs branch)

/-- Body of the delete handler of the branches modal. -/
def modalDeleteInner (vcs : Vcs) (branch : String) :
    List Event × Option GitError :=
  match vcs.deleteBranchResult branch with
  | .error e => ([Event.engineDeleteBranch branch], some e)
  | .ok _ =>
    ([Event.engineDeleteBranch branch, Event.refreshStateEv], none)

/-- Delete handler of the branches modal. -/
def modalHandleDelete (vcs : Vcs) (branch : String) : List Event :=
  errorHandler (modalDeleteInner vcs branch)

/-- Body of the remote checkout handler of the branches modal: a deep
fetch of all branches with depth 20, then the checkout handler. -/
def modalRemoteCheckoutInner (vcs : Vcs) (repo : GitRepository)
    (branch : String) : List Event × Option GitError :=
  match vcs.fetchResult true 20 with
  | .error e =>
    ([Event.engineFetch repo.credentials true 20], some e)
  | .ok _ =>
    (Event.engineFetch repo.credentials true 20 ::
      modalHandleCheckout vcs branch, none)

/-- Remote checkout handler of the branches modal. -/
def modalHandleRemoteCheckout (vcs : Vcs) (repo : GitRepository)
    (branch : String) : List Event :=
  errorHandler (modalRemoteCheckoutInner vcs repo branch)

/-- The show method of the branches modal: refresh, then a shallow fetch
of the current branch only with depth 1, then refresh again. The fetch
is not wrapped, so a fetch error escapes. -/
def modalShow (vcs : Vcs) (repo : GitRepository) :
    List Event × Option GitError :=
  match vcs.fetchResult false 1 with
  | .error e =>
    ([Event.refreshStateEv,
      Event.engineFetch repo.credentials false 1], some e)
  | .ok _ =>
    ([Event.refreshStateEv,
      Event.engineFetch repo.credentials false 1,
      Event.refreshStateEv], none)

/-- Condition of the render method of the dropdown under which the Push
item is emitted: the engine is initialized and the log is non-empty. -/
def pushControlOffered (isInit : Bool) (log : List GitLogEntry) : Bool :=
  isInit && decide (0 < log.length)

/-- The remote-only branch list of the render method of the branches
modal: remote branches filtered to those not contained in the local
branch list. -/
def remoteOnlyBranches (branches remoteBranches : List String) :
    List String :=
  remoteBranches.filter (fun b => !(branches.contains b))

/-! Concrete fixtures used to evaluate the handlers. -/

/-- A sample repository configuration. -/
def repo0 : GitRepository := { credentials := "token-abc" }

/-- A sample head log entry. -/
def logEntry0 : GitLogEntry :=
  { commit := { author := { name := "Ada", timestamp := 1700000000 } } }

/-- An engine oracle on which every operation succeeds. -/
def okVcs : Vcs where
  isInitialized := true
  getBranch := "main"
  listBranches := ["main", "feature"]
  listRemoteBranches := ["main", "feature", "remote-only"]
  log := [logEntry0]
  pullResult := .ok ()
  canPushResult := .ok true
  pushResult := fun _ => .ok ()
  checkoutResult := fun _ => .ok ()
  mergeResult := fun _ => .ok ()
  deleteBranchResult := fun _ => .ok ()
  fetchResult := fun _ _ => .ok ()

/-- An engine oracle on which every operation fails. -/
def failVcs : Vcs where
  isInitialized := true
  getBranch := "main"
  listBranches := ["main"]
  listRemoteBranches := []
  log := []
  pullResult := .error { code := "NetworkError", message := "pull failed" }
  canPushResult := .error { code := "NetworkError", message := "canPush failed" }
  pushResult := fun _ =>
    .error { code := "PushRejectedError", message := "push rejected" }
  checkoutResult := fun _ =>
    .error { code := "CheckoutError", message := "checkout failed" }
  mergeResult := fun _ =>
    .error { code := "MergeConflictError", message := "merge failed" }
  deleteBranchResult := fun _ =>
    .error { code := "PreconditionError", message := "delete failed" }
  fetchResult := fun _ _ =>
    .error { code := "NetworkError", message := "fetch failed" }

/-- An oracle whose canPush returns false and all else succeeds. -/
def noPushVcs : Vcs := { okVcs with canPushResult := .ok false }

/-- The rejection error returned by the engine of rejectVcs. -/
def rejectedErr : GitError := { code := "PushRejectedError", message := "rejected" }

/-- The network error returned by the engine of netFailPushVcs. -/
def netErr : GitError := { code := "NetworkError", message := "connection reset" }

/-- An oracle whose push is rejected and all else succeeds. -/
def rejectVcs : Vcs :=
  { okVcs with pushResult := fun _ => .error rejectedErr }

/-- An oracle whose push fails with an error other than a push
rejection. -/
def netFailPushVcs : Vcs :=
  { okVcs with pushResult := fun _ => .error netErr }

/-- An uninitialized engine oracle. -/
def uninitVcs : Vcs := { okVcs with isInitialized := false }

/-- A metadata record with stale cached values and no repository
binding. -/
def staleMeta : WorkspaceMeta where
  cachedGitRepositoryBranch := some "old-branch"
  cachedGitLastAuthor := some "Bob"
  cachedGitLastCommitTime := some 123456
  gitRepositoryId := none

/-- A metadata record with empty cache and a repository binding. -/
def meta0 : WorkspaceMeta where
  cachedGitRepositoryBranch := none
  cachedGitLastAuthor := none
  cachedGitLastCommitTime := none
  gitRepositoryId := some "git_repo_1"

/-! Claim theorems. -/

/-- C3: for every invocation of the pull handler with a configured
repository, the trace is exactly: begin buffer, engine pull with the
repository credentials, on error a report (not a rethrow), flush without
notification; the flush closes the trace on the success path and on the
error path, and no error escapes the handler. -/
theorem pull_choreography (r : GitRepository) (vcs : Vcs) :
    (vcs.pullResult = .ok () →
      handlePull (some r) vcs =
        ([Event.bufferChanges, Event.enginePull r.credentials,
          Event.flushChanges false], none)) ∧
    (∀ e, vcs.pullResult = .error e →
      handlePull (some r) vcs =
        ([Event.bufferChanges, Event.enginePull r.credentials,
          Event.showError "Error Pulling Repository",
          Event.flushChanges false], none)) := by
  constructor
  · intro h
    simp [handlePull, h]
  · intro e h
    simp [handlePull, h]

/-- Witness for C3: the pull choreography evaluated on a succeeding
engine and on a failing engine. -/
theorem pull_choreography_witness :
    handlePull (some repo0) okVcs =
      ([Event.bufferChanges, Event.enginePull repo0.credentials,
        Event.flushChanges false], none) ∧
    handlePull (some repo0) failVcs =
      ([Event.bufferChanges, Event.enginePull repo0.credentials,
        Event.showError "Error Pulling Repository",
        Event.flushChanges false], none) :=
  ⟨(pull_choreography repo0 okVcs).1 rfl,
   (pull_choreography repo0 failVcs).2
     { code := "NetworkError", message := "pull failed" } rfl⟩

/-- C2: the push handler with a configured repository first calls engine
canPush with the repository credentials; when canPush is false it
reports a skipped push and stops with no buffer and no push call; when
canPush is true it buffers, pushes with the given force flag, offers a
force retry with force true on a PushRejectedError and reports any other
push error, and flushes without notification after the push attempt on
every one of those paths; the confirm action of the retry alert is the
push handler itself with force true. -/
theorem push_choreography (r : GitRepository) (vcs : Vcs) (force : Bool) :
    (handlePush (some r) vcs force).1.head? =
      some (Event.engineCanPush r.credentials) ∧
    (vcs.canPushResult = .ok false →
      handlePush (some r) vcs force =
        ([Event.engineCanPush r.credentials,
          Event.showAlert "Push Skipped"], none)) ∧
    (vcs.canPushResult = .ok true → vcs.pushResult force = .ok () →
      handlePush (some r) vcs force =
        ([Event.engineCanPush r.credentials, Event.bufferChanges,
          Event.enginePush r.credentials force,
          Event.flushChanges false], none)) ∧
    (∀ e, vcs.canPushResult = .ok true → vcs.pushResult force = .error e →
      e.code = "PushRejectedError" →
      handlePush (some r) vcs force =
        ([Event.engineCanPush r.credentials, Event.bufferChanges,
          Event.enginePush r.credentials force,
          Event.offerForcePushRetry true,
          Event.flushChanges false], none)) ∧
    (∀ e, vcs.canPushResult = .ok true → vcs.pushResult force = .error e →
      e.code ≠ "PushRejectedError" →
      handlePush (some r) vcs force =
        ([Event.engineCanPush r.credentials, Event.bufferChanges,
          Event.enginePush r.credentials force,
          Event.showError "Error Pushing Repository",
          Event.flushChanges false], none)) ∧
    confirmForcePushRetry (some r) vcs = handlePush (some r) vcs true := by
  refine ⟨?_, ?_, ?_, ?_, ?_, rfl⟩
  · rcases hc : vcs.canPushResult with e | b
    · simp [handlePush, hc]
    · rcases b
      · simp [handlePush, hc]
      · rcases hp : vcs.pushResult force with e | u
        · by_cases hcode : e.code = "PushRejectedError" <;>
            simp [handlePush, hc, hp, hcode]
        · simp [handlePush, hc, hp]
  · intro h
    simp [handlePush, h]
  · intro h1 h2
    simp [handlePush, h1, h2]
  · intro e h1 h2 h3
    simp [handlePush, h1, h2, h3]
  · intro e h1 h2 h3
    simp [handlePush, h1, h2, h3]

/-- Witness for C2: the push choreography evaluated on an engine with
nothing to push and on an engine that rejects the push. -/
theorem push_choreography_witness :
    handlePush (some repo0) noPushVcs false =
      ([Event.engineCanPush repo0.credentials,
        Event.showAlert "Push Skipped"], none) ∧
    handlePush (some repo0) rejectVcs false =
      ([Event.engineCanPush repo0.credentials, Event.bufferChanges,
        Event.enginePush repo0.credentials false,
        Event.offerForcePushRetry true,
        Event.flushChanges false], none) ∧
    handlePush (some repo0) netFailPushVcs false =
      ([Event.engineCanPush repo0.credentials, Event.bufferChanges,
        Event.enginePush repo0.credentials false,
        Event.showError "Error Pushing Repository",
        Event.flushChanges false], none) :=
  ⟨(push_choreography repo0 noPushVcs false).2.1 rfl,
   (push_choreography repo0 rejectVcs false).2.2.2.1 rejectedErr rfl rfl rfl,
   (push_choreography repo0 netFailPushVcs false).2.2.2.2.1 netErr rfl rfl
     (by decide)⟩

/-- C1: evaluation at the failing input. In the branches modal, a
checkout whose engine call fails produces the trace buffer begin, engine
checkout, error report; the flush never happens on that path, so the
buffer opened at the start of the action is leaked, while the dropdown
version of the same action does flush with notification after the same
engine failure. -/
theorem modal_checkout_error_skips_flush :
    modalHandleCheckout failVcs "feature" =
      [Event.bufferChanges, Event.engineCheckout "feature",
       Event.setErrorState "checkout failed"] ∧
    (∀ b, Event.flushChanges b ∉ modalHandleCheckout failVcs "feature") ∧
    Event.bufferChanges ∈ modalHandleCheckout failVcs "feature" ∧
    Event.flushChanges true ∈ handleCheckoutBranch failVcs "feature" := by
  refine ⟨rfl, ?_, ?_, ?_⟩ <;> decide

/-- C4: whenever the metadata refresh runs with the engine uninitialized
or with no repository id on the workspace metadata, the resulting stored
record has all three cached fields null; a database write is issued
exactly when at least one stored cached field was non-null, and when no
write is issued the stored record is unchanged. -/
theorem metadata_cleared_when_unconfigured (vcs : Vcs) (meta : WorkspaceMeta)
    (h : vcs.isInitialized = false ∨ strFalsy meta.gitRepositoryId = true) :
    ((refreshState vcs meta).1.cachedGitRepositoryBranch = none ∧
     (refreshState vcs meta).1.cachedGitLastAuthor = none ∧
     (refreshState vcs meta).1.cachedGitLastCommitTime = none) ∧
    ((refreshState vcs meta).2 = true ↔
      (meta.cachedGitRepositoryBranch.isSome = true ∨
       meta.cachedGitLastAuthor.isSome = true ∨
       meta.cachedGitLastCommitTime.isSome = true)) ∧
    ((refreshState vcs meta).2 = false → refreshState vcs meta = (meta, false)) := by
  have hg : (!vcs.isInitialized || strFalsy meta.gitRepositoryId) = true := by
    rcases h with h | h <;> simp [h]
  obtain ⟨b, a, t, gid⟩ := meta
  rcases b <;> rcases a <;> rcases t <;>
    simp_all [refreshState, isNotNullOrUndefined]

/-- Witness for C4: clearing a stale record on an uninitialized engine
issues a write and nulls all three fields. -/
theorem metadata_cleared_when_unconfigured_witness :
    (refreshState uninitVcs staleMeta).1.cachedGitRepositoryBranch = none ∧
    (refreshState uninitVcs staleMeta).1.cachedGitLastAuthor = none ∧
    (refreshState uninitVcs staleMeta).1.cachedGitLastCommitTime = none ∧
    (refreshState uninitVcs staleMeta).2 = true := by
  have h := metadata_cleared_when_unconfigured uninitVcs staleMeta (Or.inl rfl)
  exact ⟨h.1.1, h.1.2.1, h.1.2.2, h.2.1.mpr (Or.inl rfl)⟩

/-- C5: when the engine merge succeeds, the merge handler of the modal
continues with the checkout handler for the same branch, and when that
checkout also succeeds at the engine, the checkout handler performs
exactly buffer begin, engine checkout, flush with notification, entity
reinitialization, state refresh. -/
theorem merge_then_full_checkout (vcs : Vcs) (b : String)
    (hm : vcs.mergeResult b = .ok ()) :
    modalHandleMerge vcs b =
      Event.engineMerge b :: modalHandleCheckout vcs b ∧
    (vcs.checkoutResult b = .ok () →
      modalHandleCheckout vcs b =
        [Event.bufferChanges, Event.engineCheckout b,
         Event.flushChanges true, Event.initializeEntities,
         Event.refreshStateEv]) := by
  constructor
  · simp [modalHandleMerge, modalMergeInner, hm, errorHandler]
  · intro hc
    simp [modalHandleCheckout, modalCheckoutInner, hc, errorHandler]

/-- Witness for C5: merge then checkout on a succeeding engine. -/
theorem merge_then_full_checkout_witness :
    modalHandleMerge okVcs "feature" =
      Event.engineMerge "feature" :: modalHandleCheckout okVcs "feature" ∧
    modalHandleCheckout okVcs "feature" =
      [Event.bufferChanges, Event.engineCheckout "feature",
       Event.flushChanges true, Event.initializeEntities,
       Event.refreshStateEv] :=
  ⟨(merge_then_full_checkout okVcs "feature" rfl).1,
   (merge_then_full_checkout okVcs "feature" rfl).2 rfl⟩

/-- C6: when the metadata refresh runs with the engine initialized, a
repository id present and a non-empty log, the cached commit time
written is the author timestamp of the head log entry, in seconds,
multiplied by exactly 1000; the cached author is the name of that
author, the cached branch is the current branch, and a write is
issued. -/
theorem metadata_commit_time_millis (vcs : Vcs) (meta : WorkspaceMeta)
    (en : GitLogEntry) (rest : List GitLogEntry)
    (h1 : vcs.isInitialized = true)
    (h2 : strFalsy meta.gitRepositoryId = false)
    (h3 : vcs.log = en :: rest) :
    (refreshState vcs meta).1.cachedGitLastCommitTime =
      some (en.commit.author.timestamp * 1000) ∧
    (refreshState vcs meta).1.cachedGitLastAuthor =
      some en.commit.author.name ∧
    (refreshState vcs meta).1.cachedGitRepositoryBranch =
      some vcs.getBranch ∧
    (refreshState vcs meta).2 = true := by
  simp [refreshState, h1, h2, h3]

/-- Witness for C6: the sample head entry with timestamp 1700000000
seconds is cached as 1700000000000 milliseconds. -/
theorem metadata_commit_time_millis_witness :
    (refreshState okVcs meta0).1.cachedGitLastCommitTime =
      some (1700000000 * 1000) ∧
    (refreshState okVcs meta0).1.cachedGitLastAuthor = some "Ada" ∧
    (refreshState okVcs meta0).1.cachedGitRepositoryBranch = some "main" ∧
    (refreshState okVcs meta0).2 = true :=
  metadata_commit_time_millis okVcs meta0 logEntry0 [] rfl rfl rfl

/-- C7: the remote checkout handler always performs an engine fetch with
fetchAllBranches true and depth 20 with the repository credentials as
its first action, and when that fetch succeeds the rest of its trace is
the checkout handler for the remote branch; the show method of the
branches view performs its fetch with fetchAllBranches false and
depth 1. -/
theorem fetch_depth_policy (vcs : Vcs) (repo : GitRepository) (b : String) :
    (modalRemoteCheckoutInner vcs repo b).1.head? =
      some (Event.engineFetch repo.credentials true 20) ∧
    (vcs.fetchResult true 20 = .ok () →
      modalHandleRemoteCheckout vcs repo b =
        Event.engineFetch repo.credentials true 20 ::
          modalHandleCheckout vcs b) ∧
    (modalShow vcs repo).1.take 2 =
      [Event.refreshStateEv, Event.engineFetch repo.credentials false 1] := by
  refine ⟨?_, ?_, ?_⟩
  · rcases hf : vcs.fetchResult true 20 with e | u <;>
      simp [modalRemoteCheckoutInner, hf]
  · intro hf
    simp [modalHandleRemoteCheckout, modalRemoteCheckoutInner, hf,
      errorHandler]
  · rcases hf : vcs.fetchResult false 1 with e | u <;>
      simp [modalShow, hf]

/-- Witness for C7: the remote checkout of the sample remote-only branch
on a succeeding engine starts with the deep fetch of depth 20. -/
theorem fetch_depth_policy_witness :
    modalHandleRemoteCheckout okVcs repo0 "remote-only" =
      Event.engineFetch repo0.credentials true 20 ::
        modalHandleCheckout okVcs "remote-only" :=
  (fetch_depth_policy okVcs repo0 "remote-only").2.1 rfl

/-- Counterexample for C8: invoking the pull handler or the push handler
with no repository configured makes the handler throw an error that
escapes the orchestrator (the second component is some thrown error),
with an empty trace and so no user-visible report. -/
theorem pull_push_unconfigured_unhandled :
    (handlePull none okVcs).2 =
      some { code := "Error"
             message := "Tried to pull without configuring git repo" } ∧
    (handlePull none okVcs).1 = [] ∧
    (handlePush none okVcs false).2 =
      some { code := "Error"
             message := "Tried to push without configuring git repo" } ∧
    (handlePush none okVcs false).1 = [] := by
  refine ⟨rfl, rfl, rfl, rfl⟩

/-- C8 (amended): for every orchestrator action invoked with a
configured repository, no error escapes the handler, and every engine
error, as well as the nothing-to-push precondition, is converted into a
user-visible report: an error dialog, an alert, a force-push offer, or
the error banner of the branches view. -/
theorem orchestrator_error_reporting (r : GitRepository) (vcs : Vcs)
    (force : Bool) (b : String) :
    (handlePull (some r) vcs).2 = none ∧
    (∀ e, vcs.pullResult = .error e →
      Event.showError "Error Pulling Repository" ∈ (handlePull (some r) vcs).1) ∧
    (handlePush (some r) vcs force).2 = none ∧
    (∀ e, vcs.canPushResult = .error e →
      Event.showError "Error Pushing Repository" ∈
        (handlePush (some r) vcs force).1) ∧
    (vcs.canPushResult = .ok false →
      Event.showAlert "Push Skipped" ∈ (handlePush (some r) vcs force).1) ∧
    (∀ e, vcs.canPushResult = .ok true → vcs.pushResult force = .error e →
      Event.offerForcePushRetry true ∈ (handlePush (some r) vcs force).1 ∨
      Event.showError "Error Pushing Repository" ∈
        (handlePush (some r) vcs force).1) ∧
    (∀ e, vcs.checkoutResult b = .error e →
      Event.showError "Checkout Error" ∈ handleCheckoutBranch vcs b) ∧
    (∀ e, vcs.checkoutResult b = .error e →
      Event.setErrorState e.message ∈ modalHandleCheckout vcs b) ∧
    (∀ e, vcs.mergeResult b = .error e →
      Event.setErrorState e.message ∈ modalHandleMerge vcs b) ∧
    (∀ e, vcs.deleteBranchResult b = .error e →
      Event.setErrorState e.message ∈ modalHandleDelete vcs b) ∧
    (∀ e, vcs.fetchResult true 20 = .error e →
      Event.setErrorState e.message ∈ modalHandleRemoteCheckout vcs r b) ∧
    (∀ e, vcs.fetchResult true 20 = .ok () → vcs.checkoutResult b = .error e →
      Event.setErrorState e.message ∈ modalHandleRemoteCheckout vcs r b) := by
  refine ⟨?_, ?_, ?_, ?_, ?_, ?_, ?_, ?_, ?_, ?_, ?_, ?_⟩
  · rcases hp : vcs.pullResult with e | u <;> simp [handlePull, hp]
  · intro e h
    simp [handlePull, h]
  · rcases hc : vcs.canPushResult with e | bb
    · simp [handlePush, hc]
    · rcases bb
      · simp [handlePush, hc]
      · rcases hp : vcs.pushResult force with e | u
        · by_cases hcode : e.code = "PushRejectedError" <;>
            simp [handlePush, hc, hp, hcode]
        · simp [handlePush, hc, hp]
  · intro e h
    simp [handlePush, h]
  · intro h
    simp [handlePush, h]
  · intro e h1 h2
    by_cases hcode : e.code = "PushRejectedError"
    · exact Or.inl (by simp [handlePush, h1, h2, hcode])
    · exact Or.inr (by simp [handlePush, h1, h2, hcode])
  · intro e h
    simp [handleCheckoutBranch, h]
  · intro e h
    simp [modalHandleCheckout, modalCheckoutInner, h, errorHandler]
  · intro e h
    simp [modalHandleMerge, modalMergeInner, h, errorHandler]
  · intro e h
    simp [modalHandleDelete, modalDeleteInner, h, errorHandler]
  · intro e h
    simp [modalHandleRemoteCheckout, modalRemoteCheckoutInner, h,
      errorHandler]
  · intro e h1 h2
    simp [modalHandleRemoteCheckout, modalRemoteCheckoutInner, h1,
      modalHandleCheckout, modalCheckoutInner, h2, errorHandler]

/-- Witness for C8 (amended): on the all-failing engine with a
configured repository, the pull error is shown as a dialog, the merge
error appears in the error banner, and neither handler throws. -/
theorem orchestrator_error_reporting_witness :
    Event.showError "Error Pulling Repository" ∈
      (handlePull (some repo0) failVcs).1 ∧
    Event.setErrorState "merge failed" ∈ modalHandleMerge failVcs "dev" ∧
    (handlePull (some repo0) failVcs).2 = none :=
  ⟨(orchestrator_error_reporting repo0 failVcs false "dev").2.1
     { code := "NetworkError", message := "pull failed" } rfl,
   (orchestrator_error_reporting repo0 failVcs false "dev").2.2.2.2.2.2.2.2.1
     { code := "MergeConflictError", message := "merge failed" } rfl,
   (orchestrator_error_reporting repo0 failVcs false "dev").1⟩

/-- C9: within the initialized rendering path of the dropdown, the push
control is suppressed exactly when the engine log is the empty sequence,
and offered exactly when the log has at least one entry. -/
theorem push_control_suppressed_iff_empty_log (isInit : Bool)
    (log : List GitLogEntry) (h : isInit = true) :
    (pushControlOffered isInit log = false ↔ log = []) ∧
    (pushControlOffered isInit log = true ↔ log ≠ []) := by
  subst h
  constructor
  · simp [pushControlOffered, List.length_eq_zero]
  · simp [pushControlOffered, List.length_pos]

/-- Witness for C9: suppressed on the empty log, offered on a singleton
log. -/
theorem push_control_suppressed_iff_empty_log_witness :
    pushControlOffered true ([] : List GitLogEntry) = false ∧
    pushControlOffered true [logEntry0] = true :=
  ⟨(push_control_suppressed_iff_empty_log true [] rfl).1.mpr rfl,
   (push_control_suppressed_iff_empty_log true [logEntry0] rfl).2.mpr
     (by simp)⟩

/-- C10: the remote-only branch list of the branches view holds exactly
the branches of the remote list that are not in the local list, and it
is a sublist of the remote list, so the order of listRemoteBranches is
preserved; a branch present in both lists is never a remote checkout
candidate. -/
theorem remote_only_branches_diff (branches remoteBranches : List String) :
    (∀ b, b ∈ remoteOnlyBranches branches remoteBranches ↔
      (b ∈ remoteBranches ∧ b ∉ branches)) ∧
    List.Sublist (remoteOnlyBranches branches remoteBranches)
      remoteBranches := by
  constructor
  · intro b
    simp [remoteOnlyBranches, List.mem_filter]
  · exact List.filter_sublist remoteBranches

end GitSync
